import Mathlib

/-!
# PhotoGnark: verification of the spec against the code

Shallow embedding of the PhotoGnark repository (a PhotoProof-style
proof-carrying-data prototype over the gnark circuit library).

Modelling conventions:
* The image model, crop operation, serialization, transformation
  descriptors, circuit area predicate, Generator, Prover, and Verifier are
  translated directly from the Go sources (`src/image`, `src/transformations`,
  `src/generator`, `src/prover`, `src/verifier`).
* External collaborators (the gnark circuit compiler and groth16 backend,
  the eddsa signer, the MiMC hash) are out of scope per the spec; they are
  modelled as an explicit `Backend` record of abstract operations, and key
  material / proof blobs are opaque `Nat` tokens.
* `fmt.Println` side effects are modelled as an explicit log (`List String`)
  in each component's result, so that "prints and continues" control flow is
  observable.
* Go machine integers (`int`) are modelled as `Int`; `uint8` pixel channels
  as `Nat` (they are only stored and compared, never overflowed).
-/

/-- Grid dimension, `image.N = 16` (src/image). -/
def N : Nat := 16

/-- Order of the BN254 scalar field `fr`, the modulus used by
`fr.Element.SetBytes` in `ToBigEndian`. -/
def rBN254 : Nat :=
  21888242871839275222246405745257275088548364400416034343698204186575808495617

/-- An RGB pixel, `image.RGBPixel` (three `uint8` channels). -/
structure RGBPixel where
  R : Nat
  G : Nat
  B : Nat
deriving DecidableEq, Repr

/-- A metadata value stored in an image's key/value map
(`map[string]interface{}` in Go; the repository stores ints and strings). -/
inductive MetaVal where
  | int (i : Int)
  | str (s : String)
deriving DecidableEq, Repr

/-- The image type `image.I`: a fixed `N × N` pixel grid plus a metadata map.
`Pixels y x` is Go's `Pixels[y][x]` (first index = row, as written by
`SetPixel(x, y, c)` which assigns `Pixels[y][x] = c`).  The Go metadata map
is modelled as an association list (lookup takes the first match; Go maps
have unique keys). -/
structure I where
  Pixels : Fin N → Fin N → RGBPixel
  M : List (String × MetaVal)

instance : DecidableEq I := fun a b =>
  if h1 : a.Pixels = b.Pixels then
    if h2 : a.M = b.M then
      Decidable.isTrue (by cases a; cases b; cases h1; cases h2; rfl)
    else
      Decidable.isFalse (fun h => h2 (by cases h; rfl))
  else
    Decidable.isFalse (fun h => h1 (by cases h; rfl))

/-- Go map read `m[k]` with its ok-flag: the value at the first matching key. -/
def getM (m : List (String × MetaVal)) (k : String) : Option MetaVal :=
  (m.find? (fun p => p.1 == k)).map Prod.snd

/-- Go map write `m[k] = v`: replace the first binding of `k`, or append. -/
def setM (m : List (String × MetaVal)) (k : String) (v : MetaVal) :
    List (String × MetaVal) :=
  match m with
  | [] => [(k, v)]
  | p :: rest => if p.1 == k then (k, v) :: rest else p :: setM rest k v

/-- The zeroed pixel used by `image.Crop` to blacken the grid. -/
def blackPixel : RGBPixel := { R := 0, G := 0, B := 0 }

/-- Direct array access `img.Pixels[y][x]` with `Int` indices as used inside
`image.Crop`.  An out-of-range index is a runtime panic in Go; it returns the
zero pixel here and is unreachable under Crop's bounds check whenever the
metadata dimensions are at most `N`. -/
def pixAt (img : I) (y x : Int) : RGBPixel :=
  if hy : 0 ≤ y ∧ y < 16 then
    if hx : 0 ≤ x ∧ x < 16 then
      img.Pixels ⟨y.toNat, by simp only [N]; omega⟩ ⟨x.toNat, by simp only [N]; omega⟩
    else blackPixel
  else blackPixel

/-- `image.(*I).Crop(x0, y0, x1, y1)` from src/image: reads `width`/`height`
from the metadata (error if absent or non-int), rejects out-of-range or
inverted rectangles, then copies the crop rectangle to the top-left corner,
blackens everything else, and records the new dimensions in the metadata.
The Go method mutates its receiver and returns `error`; here the updated
image is returned in `Except.ok` and the receiver is unchanged on error. -/
def I.Crop (img : I) (x0 y0 x1 y1 : Int) : Except String I :=
  match getM img.M "width", getM img.M "height" with
  | some (MetaVal.int width), some (MetaVal.int height) =>
    if x0 < 0 ∨ y0 < 0 ∨ x1 ≥ width ∨ y1 ≥ height ∨ x0 > x1 ∨ y0 > y1 then
      Except.error "invalid crop dimensions: out of bounds"
    else
      let cropWidth := x1 - x0 + 1
      let cropHeight := y1 - y0 + 1
      -- temp[y][x] := Pixels[y0+y][x0+x] for y < cropHeight, x < cropWidth;
      -- blacken the whole grid; copy temp back to the top-left corner.
      Except.ok
        { Pixels := fun y x =>
            if (y : Int) < cropHeight ∧ (x : Int) < cropWidth then
              pixAt img (y0 + (y : Int)) (x0 + (x : Int))
            else blackPixel,
          M := setM (setM img.M "width" (MetaVal.int cropWidth))
                 "height" (MetaVal.int cropHeight) }
  | _, _ => Except.error "invalid image metadata for width and height"

/-- `image.AllWhiteImage` from src/image: every pixel white, metadata
`Author`, `N`, `height`, `width` (the `SetPixel` loop writes every cell). -/
def AllWhiteImage : I :=
  { Pixels := fun _ _ => { R := 255, G := 255, B := 255 },
    M := [("Author", MetaVal.str "John Doe"), ("N", MetaVal.int 16),
          ("height", MetaVal.int 16), ("width", MetaVal.int 16)] }

/-- The zero value of `image.I` (zero pixel grid, nil metadata map). -/
def zeroImage : I :=
  { Pixels := fun _ _ => blackPixel, M := [] }

/-! ## Canonical byte encoding (`ToByte` / `ToBigEndian`, src/image)

`ToByte` is `json.Marshal(img)`.  Go's `encoding/json` marshals the exported
fields in declaration order (`Pixels` then `M`) and marshals a
`map[string]interface{}` with its keys in sorted order, which is what makes
the encoding canonical.  The encoder below reproduces that structure; map
keys are sorted with an insertion sort. -/

/-- Insert one metadata binding into a list sorted by key. -/
def insertSorted (p : String × MetaVal) :
    List (String × MetaVal) → List (String × MetaVal)
  | [] => [p]
  | q :: rest => if p.1 ≤ q.1 then p :: q :: rest else q :: insertSorted p rest

/-- Sort metadata bindings by key (Go `json.Marshal` map-key ordering). -/
def sortByKey (l : List (String × MetaVal)) : List (String × MetaVal) :=
  l.foldr insertSorted []

/-- JSON string literal (the repository's keys and values need no escapes). -/
def jsonOfString (s : String) : String := "\"" ++ s ++ "\""

/-- JSON encoding of one pixel struct. -/
def jsonOfPixel (p : RGBPixel) : String :=
  "\x7b\"R\":" ++ toString p.R ++ ",\"G\":" ++ toString p.G
    ++ ",\"B\":" ++ toString p.B ++ "\x7d"

/-- JSON encoding of one pixel row. -/
def jsonOfRow (row : Fin N → RGBPixel) : String :=
  "[" ++ String.intercalate ","
    ((List.finRange N).map (fun x => jsonOfPixel (row x))) ++ "]"

/-- JSON encoding of the pixel grid. -/
def jsonOfPixels (px : Fin N → Fin N → RGBPixel) : String :=
  "[" ++ String.intercalate ","
    ((List.finRange N).map (fun y => jsonOfRow (px y))) ++ "]"

/-- JSON encoding of a metadata value. -/
def jsonOfMetaVal : MetaVal → String
  | MetaVal.int i => toString i
  | MetaVal.str s => jsonOfString s

/-- JSON encoding of the metadata map, keys sorted as `json.Marshal` does. -/
def jsonOfMeta (m : List (String × MetaVal)) : String :=
  "\x7b" ++ String.intercalate ","
    ((sortByKey m).map (fun p => jsonOfString p.1 ++ ":" ++ jsonOfMetaVal p.2))
    ++ "\x7d"

/-- JSON encoding of a whole image value. -/
def jsonOfImage (img : I) : String :=
  "\x7b\"Pixels\":" ++ jsonOfPixels img.Pixels ++ ",\"M\":"
    ++ jsonOfMeta img.M ++ "\x7d"

/-- `image.(I).ToByte`: the JSON encoding of the image as bytes (the encoder
emits ASCII only, so UTF-8 bytes are the character codes). -/
def toByte (img : I) : List Nat :=
  (jsonOfImage img).toList.map Char.toNat

/-- Big-endian interpretation of a byte slice as an unsigned integer, as
`fr.Element.SetBytes` does before reducing mod `rBN254`. -/
def bytesToNat (bs : List Nat) : Nat :=
  bs.foldl (fun acc b => acc * 256 + b) 0

/-- `fr.Element.Marshal`: the field element as a 32-byte big-endian slice.
`natToBytesBE k v` is the low `k` bytes of `v`, most significant first. -/
def natToBytesBE : Nat → Nat → List Nat
  | 0, _ => []
  | k + 1, v => natToBytesBE k (v / 256) ++ [v % 256]

/-- `image.(I).ToBigEndian`: JSON-encode, set as an `fr` element
(big-endian value mod `rBN254`), and marshal back to 32 big-endian bytes.
Used both for signing and as the circuit's secret message input. -/
def toBigEndian (img : I) : List Nat :=
  natToBytesBE 32 (bytesToNat (toByte img) % rBN254)

/-! ## Frontend (in-circuit) image values (src/image) -/

/-- `image.FrontendPixel`: pixel channels as circuit variables.  Circuit
values are field elements; the subtractions in the crop circuit are modelled
over `Int` (all values involved are small, so no wraparound occurs). -/
structure FrontendPixel where
  R : Int
  G : Int
  B : Int
deriving DecidableEq, Repr

/-- `image.FrontendImage`: the pixel grid as circuit variables. -/
structure FrontendImage where
  Pixels : Fin N → Fin N → FrontendPixel

/-- `image.(I).ToFrontendImage`: `frontendImage.Pixels[y][x] :=
frontend.Variable(img.Pixels[y][x].{R,G,B})`. -/
def toFrontendImage (img : I) : FrontendImage :=
  { Pixels := fun y x =>
      { R := (img.Pixels y x).R, G := (img.Pixels y x).G,
        B := (img.Pixels y x).B } }

/-! ## Transformation descriptors (src/transformations/transformation.go) -/

/-- `transformations.Identity = 0`. -/
def Identity : Int := 0

/-- `transformations.Crop = 1`. -/
def Crop : Int := 1

/-- `transformations.Transformation`: a tag plus an integer parameter map
(nil map modelled as `[]`; absent keys read as Go's zero value `0`). -/
structure Transformation where
  T : Int
  Params : List (String × Int)

/-- Go map read `t.Params[k]` (missing key yields the zero value). -/
def paramGet (m : List (String × Int)) (k : String) : Int :=
  ((m.find? (fun p => p.1 == k)).map Prod.snd).getD 0

/-- `transformations.CropParams`: the crop circuit's parameter block.
`ToFr` never assigns `N`, so it is an `Option` (`none` = nil variable). -/
structure CropParams where
  N : Option Int
  X0 : Int
  Y0 : Int
  X1 : Int
  Y1 : Int
deriving DecidableEq, Repr

/-- `transformations.FrTransformation`. -/
structure FrTransformation where
  T : Int
  Params : CropParams

/-- `transformations.(Transformation).ToFr`: read `x0,y0,x1,y1` from the
parameter map (`N` is left unset). -/
def Transformation.toFr (t : Transformation) : FrTransformation :=
  { T := t.T,
    Params := { N := none, X0 := paramGet t.Params "x0",
                Y0 := paramGet t.Params "y0", X1 := paramGet t.Params "x1",
                Y1 := paramGet t.Params "y1" } }

/-- The parameter block the Generator and the Prover's inductive branch use:
`t.ToFr().Params`, overwritten with the full-bounds rectangle
`(0, 0, N-1, N-1)` when the transformation is Identity (this exact block is
duplicated in src/generator and src/prover). -/
def frParamsFor (t : Transformation) : CropParams :=
  let frT := t.toFr
  if t.T = Identity then
    { frT.Params with X0 := 0, Y0 := 0, X1 := (N : Int) - 1, Y1 := (N : Int) - 1 }
  else frT.Params

/-! ## The crop circuit's primitive gates and area predicate (part_004)

gnark's `api.Cmp` compares two (bounded) field elements as integers and
returns -1, 0 or 1; `api.IsZero` returns the boolean variable 1 or 0;
`api.And` multiplies boolean variables; `api.Select(c, a, b)` returns `a`
when the boolean `c` is 1 and `b` otherwise.  On the small integer values
the circuit uses, field arithmetic agrees with `Int` arithmetic
(`Cmp(..) + 1` is 0 exactly when `Cmp` returned -1). -/

def apiCmp (a b : Int) : Int := if a < b then -1 else if a = b then 0 else 1

def apiIsZero (a : Int) : Int := if a = 0 then 1 else 0

def apiAnd (a b : Int) : Int := a * b

def apiSelect (c a b : Int) : Int := if c = 0 then b else a

/-- `transformations.Fr_Location`. -/
structure Fr_Location where
  X : Int
  Y : Int
deriving DecidableEq, Repr

/-- `transformations.Fr_SquareArea`. -/
structure Fr_SquareArea where
  topLeft : Fr_Location
  bottomRight : Fr_Location
deriving DecidableEq, Repr

/-- `transformations.InArea` (part_004): the area-membership sub-circuit.
Transcribed gate for gate:
`And(And(IsZero(Cmp(tl.X, x)), IsZero(Cmp(x, br.X))),
     And(IsZero(Cmp(tl.X, x) + 1), IsZero(Cmp(x, br.X) + 1)))`
for the X axis, the same for Y, and the conjunction of both. -/
def InArea (x y : Int) (area : Fr_SquareArea) : Int :=
  let inCropAreaX :=
    apiAnd
      (apiAnd (apiIsZero (apiCmp area.topLeft.X x))
              (apiIsZero (apiCmp x area.bottomRight.X)))
      (apiAnd (apiIsZero (apiCmp area.topLeft.X x + 1))
              (apiIsZero (apiCmp x area.bottomRight.X + 1)))
  let inCropAreaY :=
    apiAnd
      (apiAnd (apiIsZero (apiCmp area.topLeft.Y y))
              (apiIsZero (apiCmp y area.bottomRight.Y)))
      (apiAnd (apiIsZero (apiCmp area.topLeft.Y y + 1))
              (apiIsZero (apiCmp y area.bottomRight.Y + 1)))
  apiAnd inCropAreaX inCropAreaY

/-- Read `oldImage.Pixels[i][j]` with `Int` indices (in the circuit's loop
both indices stay in `[0, N)`). -/
def pixAtFr (im : FrontendImage) (i j : Int) : FrontendPixel :=
  if hi : 0 ≤ i ∧ i < 16 then
    if hj : 0 ≤ j ∧ j < 16 then
      im.Pixels ⟨i.toNat, by simp only [N]; omega⟩ ⟨j.toNat, by simp only [N]; omega⟩
    else { R := 0, G := 0, B := 0 }
  else { R := 0, G := 0, B := 0 }

/-- One iteration of `CropCircuit.CropFrontendImage`'s double loop
(part_004, lines 110-166) at grid point `(x, y)`: computes `inCropArea`,
the translated destination coordinate `(newX, newY)`, `inBounds`, and the
pixel value selected for that destination.  Transcribed from the source:
`newXFr := api.Sub(xFr, cropArea.topLeft.X)` and
`newYFr := api.Sub(xFr, cropArea.topLeft.Y)` — the second subtraction also
uses `xFr`, not `yFr`. -/
def cropLoopBody (cropArea imageBounds : Fr_SquareArea)
    (oldImage : FrontendImage) (x y : Int) : (Int × Int) × FrontendPixel :=
  let inCropArea := InArea x y cropArea
  let newX := x - cropArea.topLeft.X
  let newY := x - cropArea.topLeft.Y
  let inBounds := InArea newX newY imageBounds
  let currentPixel := pixAtFr oldImage x y
  ((newX, newY),
   { R := apiSelect inBounds (apiSelect inCropArea currentPixel.R 0) 0,
     G := apiSelect inBounds (apiSelect inCropArea currentPixel.G 0) 0,
     B := apiSelect inBounds (apiSelect inCropArea currentPixel.B 0) 0 })

/-! ## Key material and proof objects (src/generator, src/prover)

The gnark/groth16 and eddsa backends are external collaborators; their
opaque blobs (constraint systems, keys, witnesses, proofs) are `Nat`
tokens, `Option` distinguishing Go's nil interfaces, and their operations
live in a `Backend` record passed explicitly to each component. -/

/-- `generator.PK_PP`: proving key plus the signer's public key.  (Keys are
nil when the setup step failed.) -/
structure PK_PP where
  ProvingKey : Option Nat
  PublicKey : Nat
deriving DecidableEq, Repr

/-- `generator.VK_PP`: verifying key plus the signer's public key. -/
structure VK_PP where
  VerifyingKey : Option Nat
  PublicKey : Nat
deriving DecidableEq, Repr

/-- `generator.SK_PP`: the signer's secret key. -/
structure SK_PP where
  SecretKey : Nat
deriving DecidableEq, Repr

/-- `image.Z`: an image together with a public signature key
(`PublicKey` is nil in the zero value). -/
structure Z where
  Image : I
  PublicKey : Option Nat
deriving DecidableEq

/-- `prover.Proof`: `PCD_proof` is nil (`none`) in the base-case state;
`ImageSignature` is a nil-able byte slice; `Public_Witness` is a nil-able
witness blob. -/
structure Proof where
  PCD_proof : Option Nat
  Z : Z
  ImageSignature : Option (List Nat)
  Public_Witness : Option Nat
deriving DecidableEq

/-- The zero value `Proof{}` returned by the Prover's final fallthrough. -/
def zeroProof : Proof :=
  { PCD_proof := none, Z := { Image := zeroImage, PublicKey := none },
    ImageSignature := none, Public_Witness := none }

/-- The assigned `transformations.IdentityCircuit`
(identity_transformation.go): public key, signature, secret image bytes. -/
structure IdentityCircuit where
  PublicKey : Nat
  ImageSignature : List Nat
  ImageBytes : List Nat

/-- The assigned `transformations.CropCircuit` (part_004): public key and
signature, secret image bytes, pre-image grid, claimed cropped grid, and
crop parameters. -/
structure CropCircuit where
  PublicKey : Nat
  ImageSignature : List Nat
  ImageBytes : List Nat
  FrImage : FrontendImage
  CroppedImage_in : FrontendImage
  Params : CropParams

/-- A circuit assignment handed to the gnark frontend: the repository
declares exactly two circuit variants. -/
inductive CircuitAssignment where
  | identityA (c : IdentityCircuit)
  | cropA (c : CropCircuit)

/-- Whether an assignment instantiates the Identity circuit variant. -/
def CircuitAssignment.isIdentityA : CircuitAssignment → Bool
  | CircuitAssignment.identityA _ => true
  | CircuitAssignment.cropA _ => false

/-- The external gnark / gnark-crypto operations the repository calls
(spec §6 "External interfaces"), abstracted as oracle functions:
* `signImage` — `ceddsa.New` + `secretKey.Sign` inside `generator.Sign`,
  yielding (signature bytes, public key, secret key);
* `newWitness` — `frontend.NewWitness`;
* `compile` — `frontend.Compile`;
* `setup` — `groth16.Setup` on a (possibly nil) constraint system;
* `prove` — `groth16.Prove` on (possibly nil) system, key and witness;
* `publicPart` — `witness.Public()`;
* `groth16Verify` — `groth16.Verify(proof, vk, publicWitness)`, `true` on a
  nil verification error;
* `plainVerify` — `publicKey.Verify(signature, msg, mimc)`, `true` exactly
  when the signature verified (the Go error value is only printed). -/
structure Backend where
  signImage : I → List Nat × Nat × Nat
  newWitness : CircuitAssignment → Except String Nat
  compile : CircuitAssignment → Except String Nat
  setup : Option Nat → Except String (Nat × Nat)
  prove : Option Nat → Option Nat → Option Nat → Except String Nat
  publicPart : Option Nat → Except String Nat
  groth16Verify : Nat → Option Nat → Option Nat → Bool
  plainVerify : Nat → List Nat → List Nat → Bool

/-- `generator.Sign(image)`: generate a signer keypair, hash-and-sign the
image's big-endian encoding, and return
(signature, public key, secret key, big-endian image bytes). -/
def genSign (env : Backend) (image : I) : List Nat × Nat × Nat × List Nat :=
  let k := env.signImage image
  (k.1, k.2.1, k.2.2, toBigEndian image)

/-- The circuit assignment `generator.Generator` builds: a `CropCircuit`
whose pre-image and claimed cropped image are both the input image. -/
def generatorCircuit (env : Backend) (image : I) (t : Transformation) :
    CircuitAssignment :=
  let s := genSign env image
  CircuitAssignment.cropA
    { PublicKey := s.2.1, ImageSignature := s.1, ImageBytes := s.2.2.2,
      FrImage := toFrontendImage image, CroppedImage_in := toFrontendImage image,
      Params := frParamsFor t }

/-- Result of `generator.Generator`: the three key blocks, the returned
`error` value, and the printed messages. -/
structure GenResult where
  pk_pp : PK_PP
  vk_pp : VK_PP
  sk_pp : SK_PP
  err : Option String
  log : List String

/-- `generator.Generator(image, t)` (part_000): sign the image, build the
Crop circuit assignment (full-bounds parameters for Identity), compile it,
run `groth16.Setup`, and return the key material.  A compile error is only
printed — the constraint system stays nil and execution continues; the
function's returned `error` is the one produced by the setup step. -/
def Generator (env : Backend) (image : I) (t : Transformation) : GenResult :=
  let s := genSign env image
  let publicKey := s.2.1
  let secretKey := s.2.2.1
  let circuit := generatorCircuit env image t
  let compiled := env.compile circuit
  let compLog := match compiled with | Except.ok _ => [] | Except.error e => [e]
  let setupRes := env.setup compiled.toOption
  let setupLog := match setupRes with | Except.ok _ => [] | Except.error e => [e]
  { pk_pp := { ProvingKey := setupRes.toOption.map Prod.fst, PublicKey := publicKey },
    vk_pp := { VerifyingKey := setupRes.toOption.map Prod.snd, PublicKey := publicKey },
    sk_pp := { SecretKey := secretKey },
    err := match setupRes with | Except.ok _ => none | Except.error e => some e,
    log := compLog ++ setupLog }

/-- The witness/compile/prove/public block that `prover.Prover` runs in both
of its branches (the Go function repeats these statements verbatim): each
error is printed and execution continues with the nil zero value.  Returns
(proof-or-nil, public-witness-or-nil, printed messages). -/
def pipelineRun (env : Backend) (pk_pcd : PK_PP) (circuit : CircuitAssignment) :
    Option Nat × Option Nat × List String :=
  let secret_witness := env.newWitness circuit
  let witLog := match secret_witness with
    | Except.ok _ => []
    | Except.error e => ["Error while creating Witness: " ++ e]
  let compliance_predicate := env.compile circuit
  let compLog := match compliance_predicate with
    | Except.ok _ => []
    | Except.error e => [e]
  let proof_out := env.prove compliance_predicate.toOption pk_pcd.ProvingKey
    secret_witness.toOption
  let proveLog := match proof_out with
    | Except.ok _ => []
    | Except.error e => ["Error while creating Proof: " ++ e]
  let publicWitness := env.publicPart secret_witness.toOption
  let pubLog := match publicWitness with
    | Except.ok _ => []
    | Except.error e => ["Error while creating Public Witness: " ++ e]
  (proof_out.toOption, publicWitness.toOption, witLog ++ compLog ++ proveLog ++ pubLog)

/-- The circuit assignment `prover.Prover` builds in its base-case branch
(prover.go lines 41-59): a `CropCircuit` — not an `IdentityCircuit` — whose
pre-image and claimed cropped image are both the input image, with the
transformation's raw (non-defaulted) parameters. -/
def proverBaseCircuit (pk_pcd : PK_PP) (proof_in : Proof) (t : Transformation) :
    CircuitAssignment :=
  CircuitAssignment.cropA
    { PublicKey := pk_pcd.PublicKey,
      ImageSignature := proof_in.ImageSignature.getD [],
      ImageBytes := toBigEndian proof_in.Z.Image,
      FrImage := toFrontendImage proof_in.Z.Image,
      CroppedImage_in := toFrontendImage proof_in.Z.Image,
      Params := t.toFr.Params }

/-- Result of `prover.Prover`: the returned proof and the printed messages. -/
structure ProverResult where
  proof : Proof
  log : List String
deriving DecidableEq

/-- `prover.Prover(pk_pcd, verifyingKey, proof_in, t)` (prover.go).

* Base case (`proof_in.PCD_proof == nil`): build the Crop circuit assignment
  over the input image, run the witness/compile/prove pipeline, and return a
  proof with the produced circuit proof, the unchanged image and the input
  signature.
* Inductive case (`t.T` is Crop or Identity): default the parameters to the
  full rectangle for Identity, verify the incoming circuit proof (the
  outcome is only printed), crop the image (a crop error is discarded and
  the image left unchanged), sign the result, build the Crop circuit over
  (pre-image, cropped image), run the pipeline, and return a proof with the
  new circuit proof and the new image.
* Any other transformation tag: return the zero `Proof{}`. -/
def Prover (env : Backend) (pk_pcd : PK_PP) (verifyingKey : Option Nat)
    (proof_in : Proof) (t : Transformation) : ProverResult :=
  match proof_in.PCD_proof with
  | none =>
    let circuit := proverBaseCircuit pk_pcd proof_in t
    let r := pipelineRun env pk_pcd circuit
    { proof := { PCD_proof := r.1, Z := proof_in.Z,
                 ImageSignature := proof_in.ImageSignature,
                 Public_Witness := r.2.1 },
      log := r.2.2 }
  | some pcd =>
    if t.T = Crop ∨ t.T = Identity then
      let frTParams := frParamsFor t
      let verifyLog :=
        if env.groth16Verify pcd verifyingKey proof_in.Public_Witness then
          ["SUCCESS: Image verified against PCD Proof."]
        else
          ["FAIL: Image did not pass verification against PCD Proof."]
      let z_in := proof_in.Z
      let croppedImage :=
        match z_in.Image.Crop frTParams.X0 frTParams.Y0 frTParams.X1 frTParams.Y1 with
        | Except.ok i => i
        | Except.error _ => z_in.Image
      let s := genSign env croppedImage
      let z_out : Z := { Image := croppedImage, PublicKey := some s.2.1 }
      let circuit := CircuitAssignment.cropA
        { PublicKey := s.2.1, ImageSignature := s.1, ImageBytes := s.2.2.2,
          FrImage := toFrontendImage z_in.Image,
          CroppedImage_in := toFrontendImage z_out.Image,
          Params := frTParams }
      let r := pipelineRun env pk_pcd circuit
      { proof := { PCD_proof := r.1, Z := z_out, ImageSignature := none,
                   Public_Witness := r.2.1 },
        log := verifyLog ++ r.2.2 }
    else
      { proof := zeroProof, log := [] }

/-- Result of `verifier.Verifier`: the returned boolean and the printed
messages. -/
structure VerifierResult where
  ok : Bool
  log : List String

/-- `verifier.Verifier(vk_pp, proof)` (verifier.go): if the proof carries no
circuit proof, rebuild the image's canonical bytes
(`ToByte` → `fr.SetBytes` → `Marshal`, i.e. exactly `ToBigEndian`) and
verify the plain signature with the signer's public key; otherwise verify
the circuit proof against the verifying key and the proof's public witness.
Returns true only when the respective verification succeeded. -/
def Verifier (env : Backend) (vk_pp : VK_PP) (proof : Proof) : VerifierResult :=
  match proof.PCD_proof with
  | none =>
    let msg0 := toByte proof.Z.Image
    let msg := natToBytesBE 32 (bytesToNat msg0 % rBN254)
    let isVerified := env.plainVerify vk_pp.PublicKey
      (proof.ImageSignature.getD []) msg
    if isVerified then
      { ok := true,
        log := ["SUCCESS: Image verified against original image's Digital Signature."] }
    else
      { ok := false,
        log := ["FAIL: Image did not pass verification against original image's Digital Signature."] }
  | some pcd =>
    if env.groth16Verify pcd vk_pp.VerifyingKey proof.Public_Witness then
      { ok := true, log := ["SUCCESS: Image verified against PCD Proof."] }
    else
      { ok := false, log := ["FAIL: Image did not pass verification against PCD Proof."] }

/-! ## Concrete fixtures for evaluated statements -/

/-- A backend in which every external operation succeeds, with fixed tokens. -/
def envOk : Backend :=
  { signImage := fun _ => ([9], 8, 7),
    newWitness := fun _ => Except.ok 2,
    compile := fun _ => Except.ok 1,
    setup := fun _ => Except.ok (4, 5),
    prove := fun _ _ _ => Except.ok 42,
    publicPart := fun _ => Except.ok 3,
    groth16Verify := fun _ _ _ => true,
    plainVerify := fun _ _ _ => true }

/-- `envOk`, except groth16 proof verification fails. -/
def envVerifyFail : Backend := { envOk with groth16Verify := fun _ _ _ => false }

/-- `envOk`, except circuit compilation fails. -/
def envCompileFail : Backend :=
  { envOk with compile := fun _ => Except.error "compile failed" }

/-- A proving-key block. -/
def pk0 : PK_PP := { ProvingKey := some 11, PublicKey := 8 }

/-- An input proof already carrying a circuit proof (inductive state). -/
def provenProofIn : Proof :=
  { PCD_proof := some 7, Z := { Image := AllWhiteImage, PublicKey := some 8 },
    ImageSignature := some [9], Public_Witness := some 3 }

/-- An input proof carrying only an image and its signature (base state). -/
def baseProofIn : Proof :=
  { PCD_proof := none, Z := { Image := zeroImage, PublicKey := some 8 },
    ImageSignature := some [9], Public_Witness := none }

/-- A valid crop request. -/
def tCropValid : Transformation :=
  { T := Crop, Params := [("x0", 0), ("y0", 0), ("x1", 3), ("y1", 3)] }

/-- A crop request with inverted bounds (`x0 > x1`). -/
def tCropInvalid : Transformation :=
  { T := Crop, Params := [("x0", 5), ("y0", 0), ("x1", 2), ("y1", 0)] }

/-- The identity transformation (the camera passes a nil parameter map). -/
def tIdentity : Transformation := { T := Identity, Params := [] }

/-- A transformation whose tag is neither Identity (0) nor Crop (1). -/
def tUnknown : Transformation := { T := 2, Params := [] }

/-! ## Claims -/

/-- Supporting observation for C1: the implemented `InArea` conjoins the
equality tests with the strict-inequality tests (`api.And` where the doc
comment describes a disjunction), and the two X-axis conditions
`topLeft.X = x` and `topLeft.X < x` are mutually exclusive, so the gate is
identically 0.  First, one axis: the four ANDed conditions require
`a = v` together with `a < v` (via `Cmp(a,v) + 1 = 0`), so they conjoin to 0. -/
theorem axis_conditions_zero (a v b : Int) :
    apiAnd (apiAnd (apiIsZero (apiCmp a v)) (apiIsZero (apiCmp v b)))
      (apiAnd (apiIsZero (apiCmp a v + 1)) (apiIsZero (apiCmp v b + 1))) = 0 := by
  unfold apiAnd apiIsZero apiCmp
  rcases lt_trichotomy a v with h | h | h
  · norm_num [h, show ¬ a = v from by omega]
  · norm_num [show ¬ a < v from by omega, h]
  · norm_num [show ¬ a < v from by omega, show ¬ a = v from by omega]

/-- The implemented `InArea` gate evaluates to 0 (false) on every input. -/
theorem InArea_always_zero (x y : Int) (area : Fr_SquareArea) :
    InArea x y area = 0 := by
  simp only [InArea]
  rw [axis_conditions_zero]
  unfold apiAnd
  exact zero_mul _

/-- C1: the area-membership sub-circuit `InArea` should be true iff
`topLeft.x ≤ x ≤ bottomRight.x ∧ topLeft.y ≤ y ≤ bottomRight.y`; for the
rectangle (2,2)–(5,5) the spec expects true at (3,3) and (2,2) and false at
(1,1) and (6,6).  The code returns 0 (false) at all four points — in
particular at the interior point (3,3) and the corner (2,2), where the claim
requires true. -/
theorem C1_inArea_eval :
    InArea 3 3 { topLeft := { X := 2, Y := 2 }, bottomRight := { X := 5, Y := 5 } } = 0 ∧
    InArea 2 2 { topLeft := { X := 2, Y := 2 }, bottomRight := { X := 5, Y := 5 } } = 0 ∧
    InArea 1 1 { topLeft := { X := 2, Y := 2 }, bottomRight := { X := 5, Y := 5 } } = 0 ∧
    InArea 6 6 { topLeft := { X := 2, Y := 2 }, bottomRight := { X := 5, Y := 5 } } = 0 := by
  refine ⟨?_, ?_, ?_, ?_⟩ <;> decide

/-- C2: the Crop circuit's per-pixel computation is claimed to translate the
source point `(x, y)` to the destination `(x − x0, y − y0)`, deriving the
destination y-coordinate from the point's own y-coordinate.  The code
computes both destination coordinates from `xFr`: at grid point
`(x, y) = (0, 1)` with crop origin `(x0, y0) = (0, 0)` it produces the
destination `(0, 0)` where the claim requires `(0, 1)`. -/
theorem C2_translation_eval :
    (cropLoopBody
        { topLeft := { X := 0, Y := 0 }, bottomRight := { X := 3, Y := 3 } }
        { topLeft := { X := 0, Y := 0 }, bottomRight := { X := 15, Y := 15 } }
        (toFrontendImage AllWhiteImage) 0 1).1 = (0, 0) ∧
    ((0 : Int), (0 : Int)) ≠ ((0 : Int), (1 : Int)) := by
  constructor
  · rfl
  · decide

/-- C10: when the input proof already carries a circuit proof and the
transformation tag is neither Identity (0) nor Crop (1), the Prover falls
through both branches and returns the zero-valued `Proof{}` — nil circuit
proof, zero image/key pair, nil signature and public witness — and prints
nothing; it neither returns an error value nor derives anything from the
input. -/
theorem C10_unknown_transformation (env : Backend) (pk : PK_PP)
    (vk : Option Nat) (pin : Proof) (t : Transformation) (p : Nat)
    (hp : pin.PCD_proof = some p) (h0 : t.T ≠ Identity) (h1 : t.T ≠ Crop) :
    Prover env pk vk pin t = { proof := zeroProof, log := [] } := by
  obtain ⟨pcd, z, sig, pw⟩ := pin
  simp only at hp
  subst hp
  simp only [Prover]
  rw [if_neg]
  intro h
  rcases h with h | h
  · exact h1 h
  · exact h0 h

/-- Witness for C10 at a concrete unknown tag (2). -/
theorem C10_unknown_transformation_witness :
    Prover envOk pk0 (some 5) provenProofIn tUnknown
      = { proof := zeroProof, log := [] } :=
  C10_unknown_transformation envOk pk0 (some 5) provenProofIn tUnknown 7
    rfl (by decide) (by decide)

/-- C3 counterexample: with a backend whose groth16 verification fails on
everything, an inductive-state input and a valid crop, the Prover logs the
failure message but still emits a brand-new circuit proof — refuting the
claim that a verification failure is fatal to the transition. -/
theorem C3_counterexample :
    (Prover envVerifyFail pk0 (some 5) provenProofIn tCropValid).proof.PCD_proof
        = some 42 ∧
    "FAIL: Image did not pass verification against PCD Proof."
        ∈ (Prover envVerifyFail pk0 (some 5) provenProofIn tCropValid).log := by
  constructor
  · rfl
  · simp [Prover, pipelineRun, envVerifyFail, envOk, provenProofIn, tCropValid]

/-- C3 amended: the Prover's inductive branch verifies the incoming circuit
proof and prints FAIL when it does not verify, but the failure is not fatal:
the returned proof is entirely independent of the verification outcome — the
transition still crops, signs and proves exactly as on success. -/
theorem C3_amended (env : Backend) (g : Nat → Option Nat → Option Nat → Bool)
    (pk : PK_PP) (vk : Option Nat) (pin : Proof) (t : Transformation) (p : Nat)
    (hp : pin.PCD_proof = some p) (ht : t.T = Crop ∨ t.T = Identity)
    (hv : env.groth16Verify p vk pin.Public_Witness = false) :
    "FAIL: Image did not pass verification against PCD Proof."
        ∈ (Prover env pk vk pin t).log ∧
    (Prover { env with groth16Verify := g } pk vk pin t).proof
        = (Prover env pk vk pin t).proof := by
  obtain ⟨pcd, z, sig, pw⟩ := pin
  simp only at hp hv
  subst hp
  constructor
  · simp [Prover, if_pos ht, hv]
  · simp [Prover, if_pos ht, genSign, pipelineRun]

/-- Witness for C3 amended at the concrete failing backend. -/
theorem C3_amended_witness :
    "FAIL: Image did not pass verification against PCD Proof."
        ∈ (Prover envVerifyFail pk0 (some 5) provenProofIn tCropValid).log ∧
    (Prover { envVerifyFail with groth16Verify := fun _ _ _ => true }
        pk0 (some 5) provenProofIn tCropValid).proof
        = (Prover envVerifyFail pk0 (some 5) provenProofIn tCropValid).proof :=
  C3_amended envVerifyFail (fun _ _ _ => true) pk0 (some 5) provenProofIn
    tCropValid 7 rfl (Or.inl rfl) rfl

/-- C4 counterexample: for the inverted rectangle `x0=5 > x1=2`,
`image.Crop` itself rejects the parameters with an error — but the Prover
discards that error and proceeds: it still compiles and proves, producing a
proof object (over the unchanged, un-cropped image) from the invalid
parameters, refuting "fails with a parameter error before any proof attempt"
and "no proof object is produced". -/
theorem C4_counterexample :
    AllWhiteImage.Crop 5 0 2 0
        = Except.error "invalid crop dimensions: out of bounds" ∧
    (Prover envOk pk0 (some 5) provenProofIn tCropInvalid).proof.PCD_proof
        = some 42 ∧
    (Prover envOk pk0 (some 5) provenProofIn tCropInvalid).proof.Z.Image
        = AllWhiteImage := by
  refine ⟨rfl, rfl, rfl⟩

/-- C4 amended: the parameter validation lives in `image.Crop`, which
returns an error for invalid rectangles and leaves the image unchanged; the
Prover ignores that error and carries on — the output proof carries the
unchanged input image, and whenever the backend's prove step succeeds a
proof object is still produced from the invalid parameters. -/
theorem C4_amended (env : Backend) (pk : PK_PP) (vk : Option Nat)
    (pin : Proof) (t : Transformation) (p q : Nat) (e : String)
    (hp : pin.PCD_proof = some p) (ht : t.T = Crop)
    (herr : pin.Z.Image.Crop (frParamsFor t).X0 (frParamsFor t).Y0
        (frParamsFor t).X1 (frParamsFor t).Y1 = Except.error e)
    (hprove : ∀ a b c, env.prove a b c = Except.ok q) :
    (Prover env pk vk pin t).proof.Z.Image = pin.Z.Image ∧
    (Prover env pk vk pin t).proof.PCD_proof = some q := by
  obtain ⟨pcd, z, sig, pw⟩ := pin
  simp only at hp herr
  subst hp
  have ht2 : t.T = Crop ∨ t.T = Identity := Or.inl ht
  constructor
  · simp [Prover, if_pos ht2, herr]
  · simp [Prover, if_pos ht2, herr, pipelineRun, hprove, Except.toOption]

/-- Witness for C4 amended at the concrete inverted rectangle. -/
theorem C4_amended_witness :
    (Prover envOk pk0 (some 5) provenProofIn tCropInvalid).proof.Z.Image
        = provenProofIn.Z.Image ∧
    (Prover envOk pk0 (some 5) provenProofIn tCropInvalid).proof.PCD_proof
        = some 42 :=
  C4_amended envOk pk0 (some 5) provenProofIn tCropInvalid 7 42
    "invalid crop dimensions: out of bounds" rfl rfl rfl (fun _ _ _ => rfl)

/-- C5 counterexample: in the base-case transition the Prover instantiates
`CropCircuit`, not `IdentityCircuit` — at a concrete base-state input the
assignment it builds is not an Identity circuit witness. -/
theorem C5_counterexample :
    (proverBaseCircuit pk0 baseProofIn tIdentity).isIdentityA = false := by
  rfl

/-- C5 amended: in the base-case transition (no incoming circuit proof) the
Prover builds a Crop circuit witness — not an Identity circuit witness —
whose pre-transform image and claimed cropped image are both the input
image, asserting the known signature over the known image bytes under the
key block's public key, with the transformation's raw (non-defaulted)
parameters; it runs the compile/prove pipeline under the proving key and
outputs a proof carrying the produced circuit proof, the unchanged image,
and the original signature. -/
theorem C5_amended (env : Backend) (pk : PK_PP) (vk : Option Nat)
    (pin : Proof) (t : Transformation) (hp : pin.PCD_proof = none) :
    proverBaseCircuit pk pin t = CircuitAssignment.cropA
      { PublicKey := pk.PublicKey,
        ImageSignature := pin.ImageSignature.getD [],
        ImageBytes := toBigEndian pin.Z.Image,
        FrImage := toFrontendImage pin.Z.Image,
        CroppedImage_in := toFrontendImage pin.Z.Image,
        Params := t.toFr.Params } ∧
    (Prover env pk vk pin t).proof.PCD_proof
        = (pipelineRun env pk (proverBaseCircuit pk pin t)).1 ∧
    (Prover env pk vk pin t).proof.Z = pin.Z ∧
    (Prover env pk vk pin t).proof.ImageSignature = pin.ImageSignature ∧
    (Prover env pk vk pin t).proof.Public_Witness
        = (pipelineRun env pk (proverBaseCircuit pk pin t)).2.1 := by
  obtain ⟨pcd, z, sig, pw⟩ := pin
  simp only at hp
  subst hp
  exact ⟨rfl, rfl, rfl, rfl, rfl⟩

/-- Witness for C5 amended at a concrete base-state input. -/
theorem C5_amended_witness :
    proverBaseCircuit pk0 baseProofIn tIdentity = CircuitAssignment.cropA
      { PublicKey := pk0.PublicKey,
        ImageSignature := baseProofIn.ImageSignature.getD [],
        ImageBytes := toBigEndian baseProofIn.Z.Image,
        FrImage := toFrontendImage baseProofIn.Z.Image,
        CroppedImage_in := toFrontendImage baseProofIn.Z.Image,
        Params := tIdentity.toFr.Params } ∧
    (Prover envOk pk0 (some 5) baseProofIn tIdentity).proof.PCD_proof
        = (pipelineRun envOk pk0 (proverBaseCircuit pk0 baseProofIn tIdentity)).1 ∧
    (Prover envOk pk0 (some 5) baseProofIn tIdentity).proof.Z = baseProofIn.Z ∧
    (Prover envOk pk0 (some 5) baseProofIn tIdentity).proof.ImageSignature
        = baseProofIn.ImageSignature ∧
    (Prover envOk pk0 (some 5) baseProofIn tIdentity).proof.Public_Witness
        = (pipelineRun envOk pk0 (proverBaseCircuit pk0 baseProofIn tIdentity)).2.1 :=
  C5_amended envOk pk0 (some 5) baseProofIn tIdentity rfl

/-- C6: the Verifier dispatches on whether the proof carries a circuit
proof: with no circuit proof it verifies the plain signature over the
image's canonical byte encoding (`ToByte` → `fr.SetBytes` → `Marshal`,
which is exactly `ToBigEndian`) under the signer's public key; with one it
verifies the circuit proof against the supplied verifying key and the
proof's public witness.  It returns true exactly when the respective
cryptographic verification succeeds, and every outcome is reported
(exactly one message logged). -/
theorem C6_verifier_dispatch (env : Backend) (vk_pp : VK_PP) (proof : Proof) :
    ((Verifier env vk_pp proof).ok = true ↔
      (match proof.PCD_proof with
       | none => env.plainVerify vk_pp.PublicKey (proof.ImageSignature.getD [])
           (toBigEndian proof.Z.Image) = true
       | some pcd =>
           env.groth16Verify pcd vk_pp.VerifyingKey proof.Public_Witness = true)) ∧
    (Verifier env vk_pp proof).log.length = 1 := by
  obtain ⟨pcd, z, sig, pw⟩ := proof
  cases pcd with
  | none =>
    cases hB : env.plainVerify vk_pp.PublicKey (sig.getD [])
        (natToBytesBE 32 (bytesToNat (toByte z.Image) % rBN254)) <;>
      simp [Verifier, toBigEndian, hB]
  | some p =>
    cases hB : env.groth16Verify p vk_pp.VerifyingKey pw <;>
      simp [Verifier, hB]

/-- Unfolding lemma for `getM` on a cons cell. -/
theorem getM_cons (a : String) (b : MetaVal) (m : List (String × MetaVal))
    (k : String) : getM ((a, b) :: m) k = if a = k then some b else getM m k := by
  by_cases h : a = k
  · subst h
    simp [getM, List.find?]
  · have hb : (a == k) = false := by simpa using h
    simp [getM, List.find?, hb, h]

/-- Writing back the value a key already holds leaves the Go map unchanged
(in the association-list model: `setM` replaces the binding `getM` reads). -/
theorem setM_self (m : List (String × MetaVal)) (k : String) (v : MetaVal)
    (h : getM m k = some v) : setM m k v = m := by
  induction m with
  | nil => simp [getM] at h
  | cons p rest ih =>
    obtain ⟨a, b⟩ := p
    rw [getM_cons] at h
    by_cases hk : a = k
    · rw [if_pos hk] at h
      have hb : b = v := by
        cases h
        rfl
      subst hk
      subst hb
      simp [setM]
    · rw [if_neg hk] at h
      have hb : (a == k) = false := by simpa using hk
      simp [setM, hb, ih h]

/-- C7: the Identity transformation is interchangeable with
`Crop(0, 0, N-1, N-1)`: the parameter block the Prover (and Generator) use
for Identity is exactly the full-bounds rectangle, and cropping an image
whose metadata records the full dimensions to `(0, 0, 15, 15)` returns the
image unchanged (pixels and metadata). -/
theorem C7_identity_crop_equiv (ps : List (String × Int)) (img : I)
    (hw : getM img.M "width" = some (MetaVal.int 16))
    (hh : getM img.M "height" = some (MetaVal.int 16)) :
    frParamsFor { T := Identity, Params := ps }
        = { N := none, X0 := 0, Y0 := 0, X1 := 15, Y1 := 15 } ∧
    img.Crop 0 0 15 15 = Except.ok img := by
  constructor
  · simp only [frParamsFor, Transformation.toFr, Identity, N]
    norm_num
  · obtain ⟨px, m⟩ := img
    simp only at hw hh
    unfold I.Crop
    simp only [hw, hh]
    rw [if_neg (by norm_num)]
    have hM : setM (setM m "width" (MetaVal.int (15 - 0 + 1)))
        "height" (MetaVal.int (15 - 0 + 1)) = m := by
      norm_num
      rw [setM_self m "width" _ hw]
      exact setM_self m "height" _ hh
    have hPx : (fun (y x : Fin N) =>
        if (y : Int) < 15 - 0 + 1 ∧ (x : Int) < 15 - 0 + 1 then
          pixAt ⟨px, m⟩ (0 + (y : Int)) (0 + (x : Int))
        else blackPixel) = px := by
      funext y x
      have hy : (y : Int) < 16 := by
        have := y.isLt
        simp only [N] at this
        omega
      have hx : (x : Int) < 16 := by
        have := x.isLt
        simp only [N] at this
        omega
      rw [if_pos (by constructor <;> omega)]
      simp only [zero_add, pixAt]
      rw [dif_pos (by constructor <;> omega), dif_pos (by constructor <;> omega)]
      simp [Fin.eta]
    rw [hM, hPx]

/-- Witness for C7 at the all-white camera image. -/
theorem C7_identity_crop_equiv_witness :
    frParamsFor { T := Identity, Params := [] }
        = { N := none, X0 := 0, Y0 := 0, X1 := 15, Y1 := 15 } ∧
    AllWhiteImage.Crop 0 0 15 15 = Except.ok AllWhiteImage :=
  C7_identity_crop_equiv [] AllWhiteImage (by decide) (by decide)

/-- C8 counterexample: with a backend whose circuit compilation always
fails but whose setup succeeds, the Generator returns a nil error together
with populated key material — the compilation error is printed and then
discarded, refuting "any circuit-compilation error ... is surfaced to the
caller as an error result". -/
theorem C8_counterexample :
    (Generator envCompileFail zeroImage tIdentity).err = none ∧
    (Generator envCompileFail zeroImage tIdentity).pk_pp.ProvingKey = some 4 ∧
    (Generator envCompileFail zeroImage tIdentity).vk_pp.VerifyingKey = some 5 ∧
    "compile failed" ∈ (Generator envCompileFail zeroImage tIdentity).log := by
  refine ⟨rfl, rfl, rfl, ?_⟩
  simp [Generator, envCompileFail, envOk]

/-- C8 amended: the Generator's returned error reflects only the
`groth16.Setup` step — a setup error is surfaced, but a compilation error
is only printed; generation continues into setup with a nil constraint
system, and the compile failure never reaches the returned error value. -/
theorem C8_amended (env : Backend) (image : I) (t : Transformation) :
    (Generator env image t).err
      = (match env.setup ((env.compile (generatorCircuit env image t)).toOption) with
         | Except.ok _ => none
         | Except.error e => some e) ∧
    ((env.compile (generatorCircuit env image t)).isOk = false →
      (Generator env image t).err
        = (match env.setup (Option.none) with
           | Except.ok _ => none
           | Except.error e => some e)) := by
  constructor
  · simp only [Generator]
  · intro hc
    simp only [Generator]
    cases hcc : env.compile (generatorCircuit env image t) with
    | ok v =>
      rw [hcc] at hc
      simp [Except.isOk, Except.toBool] at hc
    | error e => simp [hcc, Except.toOption]

/-- Witness for C8 amended at the compile-failing backend. -/
theorem C8_amended_witness :
    (Generator envCompileFail zeroImage tIdentity).err
      = (match envCompileFail.setup
            ((envCompileFail.compile
              (generatorCircuit envCompileFail zeroImage tIdentity)).toOption) with
         | Except.ok _ => Option.none
         | Except.error e => some e) ∧
    (Generator envCompileFail zeroImage tIdentity).err
      = (match envCompileFail.setup Option.none with
         | Except.ok _ => Option.none
         | Except.error e => some e) :=
  ⟨(C8_amended envCompileFail zeroImage tIdentity).1,
   (C8_amended envCompileFail zeroImage tIdentity).2 rfl⟩

/-- `insertSorted` inserts: the result is a permutation of consing. -/
theorem insertSorted_perm (p : String × MetaVal) (l : List (String × MetaVal)) :
    (insertSorted p l).Perm (p :: l) := by
  induction l with
  | nil => simp [insertSorted]
  | cons q rest ih =>
    simp only [insertSorted]
    by_cases h : p.1 ≤ q.1
    · rw [if_pos h]
    · rw [if_neg h]
      exact (ih.cons q).trans (List.Perm.swap p q rest)

/-- `sortByKey` permutes its input. -/
theorem sortByKey_perm (l : List (String × MetaVal)) : (sortByKey l).Perm l := by
  induction l with
  | nil => simp [sortByKey]
  | cons p rest ih =>
    exact (insertSorted_perm p (sortByKey rest)).trans (ih.cons p)

/-- `insertSorted` preserves sortedness by key. -/
theorem insertSorted_pairwise (p : String × MetaVal) (l : List (String × MetaVal))
    (h : l.Pairwise (fun a b => a.1 ≤ b.1)) :
    (insertSorted p l).Pairwise (fun a b => a.1 ≤ b.1) := by
  induction l with
  | nil => simp [insertSorted]
  | cons q rest ih =>
    rcases List.pairwise_cons.mp h with ⟨hq, hrest⟩
    simp only [insertSorted]
    by_cases hpq : p.1 ≤ q.1
    · rw [if_pos hpq]
      refine List.pairwise_cons.mpr ⟨?_, h⟩
      intro b hb
      rcases List.mem_cons.mp hb with rfl | hb2
      · exact hpq
      · exact le_trans hpq (hq b hb2)
    · rw [if_neg hpq]
      refine List.pairwise_cons.mpr ⟨?_, ih hrest⟩
      intro b hb
      have hmem : b ∈ p :: rest := (insertSorted_perm p rest).mem_iff.mp hb
      rcases List.mem_cons.mp hmem with rfl | hb2
      · exact le_of_not_le hpq
      · exact hq b hb2

/-- `sortByKey` sorts by key (non-strictly). -/
theorem sortByKey_pairwise (l : List (String × MetaVal)) :
    (sortByKey l).Pairwise (fun a b => a.1 ≤ b.1) := by
  induction l with
  | nil => simp [sortByKey]
  | cons p rest ih => exact insertSorted_pairwise p (sortByKey rest) ih

/-- With distinct keys, a key-sorted list is strictly key-sorted. -/
theorem pairwise_lt_of_le_nodup (l : List (String × MetaVal))
    (hle : l.Pairwise (fun a b => a.1 ≤ b.1))
    (hnd : (l.map Prod.fst).Nodup) :
    l.Pairwise (fun a b => a.1 < b.1) := by
  induction l with
  | nil => simp
  | cons p rest ih =>
    rcases List.pairwise_cons.mp hle with ⟨hq, hrest⟩
    rw [List.map_cons, List.nodup_cons] at hnd
    refine List.pairwise_cons.mpr ⟨?_, ih hrest hnd.2⟩
    intro b hb
    refine lt_of_le_of_ne (hq b hb) ?_
    intro heq
    apply hnd.1
    rw [heq]
    exact List.mem_map_of_mem Prod.fst hb

instance : IsAntisymm (String × MetaVal) (fun a b => a.1 < b.1) :=
  ⟨fun _ _ h1 h2 => absurd h2 (lt_asymm h1)⟩

/-- Two association lists holding the same finite map (permutations of each
other, distinct keys) sort to the same list. -/
theorem sortByKey_eq_of_perm (l₁ l₂ : List (String × MetaVal))
    (hp : l₁.Perm l₂) (hnd : (l₁.map Prod.fst).Nodup) :
    sortByKey l₁ = sortByKey l₂ := by
  have h12 : (sortByKey l₁).Perm (sortByKey l₂) :=
    (sortByKey_perm l₁).trans (hp.trans (sortByKey_perm l₂).symm)
  have hnd1 : ((sortByKey l₁).map Prod.fst).Nodup :=
    (List.Perm.nodup_iff ((sortByKey_perm l₁).map Prod.fst)).mpr hnd
  have hnd2 : ((sortByKey l₂).map Prod.fst).Nodup :=
    (List.Perm.nodup_iff ((sortByKey_perm l₂).map Prod.fst)).mpr
      ((List.Perm.nodup_iff (hp.map Prod.fst)).mp hnd)
  exact List.eq_of_perm_of_sorted h12
    (pairwise_lt_of_le_nodup _ (sortByKey_pairwise l₁) hnd1)
    (pairwise_lt_of_le_nodup _ (sortByKey_pairwise l₂) hnd2)

/-- C9: the canonical byte encoding is deterministic: two in-memory values
of the same logical image — identical pixel grids and metadata maps holding
the same bindings, in any storage order — serialize to the same JSON bytes
(`ToByte`) and the same big-endian field-element form (`ToBigEndian`), as
the encoder sorts the metadata keys; re-serializing thus always reproduces
the same bytes. -/
theorem C9_canonical_encoding (a b : I)
    (hpx : a.Pixels = b.Pixels) (hperm : a.M.Perm b.M)
    (hnd : (a.M.map Prod.fst).Nodup) :
    toByte a = toByte b ∧ toBigEndian a = toBigEndian b := by
  have hj : jsonOfImage a = jsonOfImage b := by
    unfold jsonOfImage jsonOfMeta
    rw [hpx, sortByKey_eq_of_perm a.M b.M hperm hnd]
  constructor
  · unfold toByte
    rw [hj]
  · unfold toBigEndian toByte
    rw [hj]

/-- Two storage orders of the same logical image metadata. -/
def imgMeta1 : I :=
  { Pixels := fun _ _ => blackPixel,
    M := [("a", MetaVal.int 1), ("b", MetaVal.int 2)] }

/-- `imgMeta1` with its metadata bindings stored in the other order. -/
def imgMeta2 : I :=
  { Pixels := fun _ _ => blackPixel,
    M := [("b", MetaVal.int 2), ("a", MetaVal.int 1)] }

/-- Witness for C9 at two concrete storage orders. -/
theorem C9_canonical_encoding_witness :
    toByte imgMeta1 = toByte imgMeta2 ∧
    toBigEndian imgMeta1 = toBigEndian imgMeta2 :=
  C9_canonical_encoding imgMeta1 imgMeta2 rfl
    (List.Perm.swap ("b", MetaVal.int 2) ("a", MetaVal.int 1) [])
    (by decide)
